import Mathlib

/-!
Verification of the UnrealMCP blueprint-migration subsystem
(`Plugins/UnrealMCP/Source/UnrealMCP/Private/Commands`), shallowly embedded in Lean.

The embedding models:
* the JSON documents produced by the serializers (`Json`),
* the graph data model (graphs, nodes, pins, connections) as seen through the
  editor API the commands read (`Graph`, `Node`, `Pin`, `LinkRef`),
* the serializers of `FUnrealMCPBlueprintMigrationCommands` and of
  `FDeleteBlueprintFunctionCommand`,
* the dependency classification and function-call analysis of
  `HandleGetBlueprintDependencies` / `FGetBlueprintDependenciesCommand::Execute`,
* the redirect and delete operations as state transformers over a `Blueprint`
  value, with the host file system abstracted by a success flag.

Host services (asset loading, the asset-registry indices, type resolution and
the file system) are parameters of the operations, matching the spec's view of
the host as an external collaborator.
-/


/-- A JSON document.  `obj` keeps its fields as an ordered association list,
matching `FJsonObject`, whose writer emits fields in insertion order (each key
is set at most once by the code modelled here). -/
inductive Json where
  | str (s : String)
  | num (n : Int)
  | bool (b : Bool)
  | arr (elems : List Json)
  | obj (fields : List (String × Json))

/-- Lookup of the first field with the given key in an ordered field list. -/
def lookupField : List (String × Json) → String → Option Json
  | [], _ => none
  | (k', v) :: rest, k => if k' = k then some v else lookupField rest k

/-- Field access on a document; `none` on non-objects and missing keys. -/
def Json.getField : Json → String → Option Json
  | .obj fields, k => lookupField fields k
  | _, _ => none

/-! ## Graph data model

The in-memory entities the commands read from the editor: a pin's link is a
reference to the peer node's GUID and peer pin's name (`LinkedTo` as read by the
serializers), never an owning edge. -/
inductive PinDirection where
  | input
  | output
deriving DecidableEq

/-- One entry of a pin's `LinkedTo` array, as read by the serializers:
the owning node's GUID and the peer pin's name. -/
structure LinkRef where
  nodeGuid : String
  pinName : String
deriving DecidableEq

structure Pin where
  pinName : String
  direction : PinDirection
  category : String
  /-- `PinType.PinSubCategoryObject->GetName()` when the weak pointer is valid. -/
  subcategoryObject : Option String
  isArray : Bool
  isReference : Bool
  isConst : Bool
  /-- `DefaultValue`; the serializers emit it only when non-empty. -/
  defaultValue : String
  /-- `DefaultObject->GetPathName()` when the object is non-null. -/
  defaultObject : Option String
  /-- `DefaultTextValue`; emitted only when non-empty. -/
  defaultText : String
  linkedTo : List LinkRef
deriving DecidableEq

/-- A resolved `UClass`: its short name (`GetName`) and path (`GetPathName`). -/
structure ClassRef where
  name : String
  pathName : String
deriving DecidableEq

/-- A resolved `UFunction`: its name and owner class (`GetOwnerClass`, which the
code null-checks). -/
structure FunctionRef where
  name : String
  ownerClass : Option ClassRef
deriving DecidableEq

/-- The node-kind information the serializers extract by `Cast<>` dispatch.
`callFunction`'s argument is `GetTargetFunction()` (null when unresolved). -/
inductive NodeKind where
  | callFunction (target : Option FunctionRef) (isPure : Bool)
  | event (eventName : String) (eventParentClass : Option String)
  | variableGet (variableName : String)
  | variableSet (variableName : String)
  | inputAction (actionName : String)
  | selfNode
  | functionEntry
  | functionResult
  | macroInstance (macroGraphName : Option String)
  | other
deriving DecidableEq

structure Node where
  /-- `NodeGuid.ToString()`: the stable identifier. -/
  guid : String
  /-- `GetClass()->GetName()`. -/
  className : String
  /-- `GetNodeTitle(FullTitle)`. -/
  title : String
  posX : Int
  posY : Int
  comment : String
  commentBubbleVisible : Bool
  kind : NodeKind
  pins : List Pin
deriving DecidableEq

structure Graph where
  name : String
  /-- `GetClass()->GetName()`. -/
  className : String
  nodes : List Node
deriving DecidableEq

/-- The view of a loaded `UBlueprint` the migration commands use:
`GetAllGraphs` result plus the dedicated `FunctionGraphs` array. -/
structure Blueprint where
  name : String
  pathName : String
  /-- `ParentClass` (null possible). -/
  parentClass : Option ClassRef
  graphs : List Graph
  functionGraphs : List Graph
deriving DecidableEq

/-! ## Serializers of `FUnrealMCPBlueprintMigrationCommands` (monolithic dispatcher) -/
namespace FUnrealMCPBlueprintMigrationCommands

/-- One entry of a pin's `connections` array (`SerializePin`, connection loop). -/
def SerializeConnection (l : LinkRef) : Json :=
  .obj [("node_guid", .str l.nodeGuid), ("pin_name", .str l.pinName)]

/-- `FUnrealMCPBlueprintMigrationCommands::SerializePin`. -/
def SerializePin (p : Pin) (bIncludeConnections : Bool) : Json :=
  .obj (
    [("name", .str p.pinName),
     ("direction", .str (if p.direction = PinDirection.input then "Input" else "Output")),
     ("category", .str p.category)]
    ++ (match p.subcategoryObject with
        | some s => [("subcategory", Json.str s)]
        | none => [])
    ++ [("is_array", .bool p.isArray),
        ("is_reference", .bool p.isReference),
        ("is_const", .bool p.isConst)]
    ++ (if p.defaultValue = "" then [] else [("default_value", Json.str p.defaultValue)])
    ++ (match p.defaultObject with
        | some o => [("default_object", Json.str o)]
        | none => [])
    ++ (if p.defaultText = "" then [] else [("default_text", Json.str p.defaultText)])
    ++ (if bIncludeConnections ∧ p.linkedTo ≠ [] then
          [("connections", Json.arr (p.linkedTo.map SerializeConnection))]
        else []))

/-- The kind-specific fields of `SerializeNode` (the `Cast<>` dispatch chain). -/
def NodeTypeFields : NodeKind → List (String × Json)
  | .callFunction target isPure =>
      [("node_type", .str "CallFunction")]
      ++ (match target with
          | some f =>
              [("function_name", Json.str f.name)]
              ++ (match f.ownerClass with
                  | some c =>
                      [("function_class", Json.str c.name),
                       ("function_class_path", Json.str c.pathName)]
                  | none => [])
          | none => [])
      ++ [("is_pure", .bool isPure)]
  | .event eventName parent =>
      [("node_type", .str "Event"), ("event_name", .str eventName)]
      ++ (match parent with
          | some c => [("event_class", Json.str c)]
          | none => [])
  | .variableGet v => [("node_type", .str "VariableGet"), ("variable_name", .str v)]
  | .variableSet v => [("node_type", .str "VariableSet"), ("variable_name", .str v)]
  | .inputAction a => [("node_type", .str "InputAction"), ("action_name", .str a)]
  | .selfNode => [("node_type", .str "Self")]
  | .functionEntry => [("node_type", .str "FunctionEntry")]
  | .functionResult => [("node_type", .str "FunctionResult")]
  | .macroInstance mg =>
      [("node_type", .str "MacroInstance")]
      ++ (match mg with
          | some m => [("macro_name", Json.str m)]
          | none => [])
  | .other => [("node_type", .str "Other")]

/-- The pin loop of `SerializeNode`: one pass over `Node->Pins`, appending each
serialized pin to the input or the output array according to its direction. -/
def PartitionPinJsons : List Pin → List Json × List Json
  | [] => ([], [])
  | p :: rest =>
      let (ins, outs) := PartitionPinJsons rest
      if p.direction = PinDirection.input then (SerializePin p true :: ins, outs)
      else (ins, SerializePin p true :: outs)

/-- `FUnrealMCPBlueprintMigrationCommands::SerializeNode`. -/
def SerializeNode (n : Node) : Json :=
  .obj (
    [("guid", .str n.guid),
     ("class", .str n.className),
     ("title", .str n.title),
     ("pos_x", .num n.posX),
     ("pos_y", .num n.posY),
     ("comment", .str n.comment),
     ("comment_bubble_visible", .bool n.commentBubbleVisible)]
    ++ NodeTypeFields n.kind
    ++ [("input_pins", .arr (PartitionPinJsons n.pins).1),
        ("output_pins", .arr (PartitionPinJsons n.pins).2)])

/-- `FUnrealMCPBlueprintMigrationCommands::SerializeGraph`.  The
`bIncludeDefaults` flag is accepted but unused, exactly as in the source. -/
def SerializeGraph (g : Graph) (bIncludeDefaults : Bool) : Json :=
  .obj [("name", .str g.name),
        ("class", .str g.className),
        ("node_count", .num (g.nodes.length : Int)),
        ("nodes", .arr (g.nodes.map SerializeNode))]

end FUnrealMCPBlueprintMigrationCommands

/-! ## Serializers and error envelope of `FDeleteBlueprintFunctionCommand`
(per-operation module; a reduced copy of the dispatcher's serializers). -/
namespace FDeleteBlueprintFunctionCommand

/-- One entry of a pin's `connections` array (delete command's `SerializePin`). -/
def SerializeConnection (l : LinkRef) : Json :=
  .obj [("node_guid", .str l.nodeGuid), ("pin_name", .str l.pinName)]

/-- `FDeleteBlueprintFunctionCommand::SerializePin`: name, direction, category,
optional subcategory, optional default value and connections only — no
array/reference/const flags and no default object/text. -/
def SerializePin (p : Pin) (bIncludeConnections : Bool) : Json :=
  .obj (
    [("name", .str p.pinName),
     ("direction", .str (if p.direction = PinDirection.input then "Input" else "Output")),
     ("category", .str p.category)]
    ++ (match p.subcategoryObject with
        | some s => [("subcategory", Json.str s)]
        | none => [])
    ++ (if p.defaultValue = "" then [] else [("default_value", Json.str p.defaultValue)])
    ++ (if bIncludeConnections ∧ p.linkedTo ≠ [] then
          [("connections", Json.arr (p.linkedTo.map SerializeConnection))]
        else []))

/-- `FDeleteBlueprintFunctionCommand::SerializeNode`: guid, class, title and
position only — no comment fields and no kind dispatch — with a single flat
`pins` array instead of direction-split lists. -/
def SerializeNode (n : Node) : Json :=
  .obj (
    [("guid", .str n.guid),
     ("class", .str n.className),
     ("title", .str n.title),
     ("pos_x", .num n.posX),
     ("pos_y", .num n.posY)]
    ++ [("pins", .arr (n.pins.map (fun p => SerializePin p true)))])

/-- `FDeleteBlueprintFunctionCommand::SerializeGraph`; `bIncludeDefaults` is
accepted but unused, as in the source. -/
def SerializeGraph (g : Graph) (bIncludeDefaults : Bool) : Json :=
  .obj [("name", .str g.name),
        ("class", .str g.className),
        ("node_count", .num (g.nodes.length : Int)),
        ("nodes", .arr (g.nodes.map SerializeNode))]

/-- `FDeleteBlueprintFunctionCommand::CreateErrorResponse`: exactly the two
fields `success=false` and `error`. -/
def CreateErrorResponse (msg : String) : Json :=
  .obj [("success", .bool false), ("error", .str msg)]

end FDeleteBlueprintFunctionCommand

/-- Modelled from the spec: `FUnrealMCPCommonUtils::CreateErrorResponse` is
called by the monolithic dispatcher but its implementation file is not among
the provided sources; per the spec's envelope contract, failure responses carry
only `success=false` and a human-readable `error` string. -/
def FUnrealMCPCommonUtils.CreateErrorResponse (msg : String) : Json :=
  .obj [("success", .bool false), ("error", .str msg)]

/-- `WriteJsonToTempFile` (identical in the dispatcher, the redirect command and
the delete command): returns the written path, or `""` on write failure,
together with the list of files actually written. -/
def WriteJsonToTempFile (fsWriteOk : Bool) (exportDir fileName : String)
    (content : Json) : String × List (String × Json) :=
  let filePath := exportDir ++ "/" ++ fileName
  if fsWriteOk then (filePath, [(filePath, content)]) else ("", [])

/-- The host-side environment of a file-writing command: whether
`SaveStringToFile` succeeds, the export directory, and the current local
timestamp used in generated file names. -/
structure FileHost where
  fsWriteOk : Bool
  exportDir : String
  nowStamp : String

/-- The observable outcome of one command invocation: the response document,
the blueprint state after the call, the backup files written, and whether
`MarkBlueprintAsModified` was called. -/
structure CommandResult where
  response : Json
  blueprint : Blueprint
  writtenFiles : List (String × Json)
  markedModified : Bool

/-! ## Delete command (`FDeleteBlueprintFunctionCommand::Execute`) -/
namespace FDeleteBlueprintFunctionCommand

structure DeleteParams where
  functionName : String
  backup : Bool

/-- The graph-resolution step of `Execute`: first exact name match over
`GetAllGraphs`, then over the dedicated `FunctionGraphs` array. -/
def FindGraphToDelete (bp : Blueprint) (functionName : String) : Option Graph :=
  match bp.graphs.find? (fun g => g.name = functionName) with
  | some g => some g
  | none => bp.functionGraphs.find? (fun g => g.name = functionName)

/-- `FBlueprintEditorUtils::RemoveGraph` detaches the resolved graph from the
blueprint: the first graph of that name disappears from both arrays. -/
def RemoveGraph (bp : Blueprint) (functionName : String) : Blueprint :=
  { bp with
    graphs := bp.graphs.eraseP (fun g => g.name = functionName),
    functionGraphs := bp.functionGraphs.eraseP (fun g => g.name = functionName) }

/-- `FDeleteBlueprintFunctionCommand::Execute`, from blueprint resolution
onward (parameter parsing and asset loading are host-side). -/
def Execute (host : FileHost) (bp : Blueprint) (p : DeleteParams) : CommandResult :=
  match FindGraphToDelete bp p.functionName with
  | none =>
      { response := CreateErrorResponse ("Function graph not found: " ++ p.functionName),
        blueprint := bp, writtenFiles := [], markedModified := false }
  | some g =>
      let backupWrite : String × List (String × Json) :=
        if p.backup then
          let backupJson : Json :=
            .obj [("blueprint_path", .str bp.pathName),
                  ("function_name", .str p.functionName),
                  ("backup_time", .str host.nowStamp),
                  ("graph_data", SerializeGraph g true)]
          let fileName :=
            "backup_func_" ++ bp.name ++ "_" ++ p.functionName ++ "_" ++ host.nowStamp ++ ".json"
          WriteJsonToTempFile host.fsWriteOk host.exportDir fileName backupJson
        else ("", [])
      let nodeCount := g.nodes.length
      let bp2 := RemoveGraph bp p.functionName
      { response :=
          .obj ([("success", .bool true),
                 ("blueprint_path", .str bp.pathName),
                 ("function_name", .str p.functionName),
                 ("nodes_removed", .num (nodeCount : Int))]
                ++ (if backupWrite.1 = "" then [] else [("backup_path", Json.str backupWrite.1)])
                ++ [("requires_compile", .bool true),
                    ("message", .str ("Successfully deleted function '" ++ p.functionName
                      ++ "' (" ++ toString nodeCount ++ " nodes)"))]),
        blueprint := bp2, writtenFiles := backupWrite.2, markedModified := true }

end FDeleteBlueprintFunctionCommand

/-- ASCII case-insensitive character-prefix test (helper for
`FStringStartsWith`). -/
def CharsPrefixCI : List Char → List Char → Bool
  | [], _ => true
  | _ :: _, [] => false
  | c :: cs, d :: ds => (c.toLower == d.toLower) && CharsPrefixCI cs ds

/-- `FString::StartsWith(Prefix)` with its default `ESearchCase::IgnoreCase`:
a case-insensitive prefix test on the character sequence. -/
def FStringStartsWith (s pre : String) : Bool := CharsPrefixCI pre.data s.data

/-! ## Dependency analysis (`HandleGetBlueprintDependencies` /
`FGetBlueprintDependenciesCommand::Execute`; the two bodies are identical). -/
namespace FUnrealMCPBlueprintMigrationCommands

/-- `TSet<FString>::Add`: insert if absent, keeping insertion order. -/
def SetInsert (s : List String) (x : String) : List String :=
  if x ∈ s then s else s ++ [x]

/-- One iteration of the dependency-classification loop: skip engine content
unless requested, then classify as native class (`/Script/` prefix), blueprint
(asset registry reports class `Blueprint`), or plain asset (everything else,
including unresolvable identifiers).  `assetClassName` abstracts
`AssetRegistry.GetAssetByObjectPath`: `none` for invalid asset data. -/
def ClassifyStep (assetClassName : String → Option String) (bIncludeEngineClasses : Bool)
    (acc : List String × List String × List String) (depPath : String) :
    List String × List String × List String :=
  let (assets, blueprints, native) := acc
  if ¬bIncludeEngineClasses ∧ (FStringStartsWith depPath "/Script/" ∨ FStringStartsWith depPath "/Engine/") then
    acc
  else if FStringStartsWith depPath "/Script/" then
    (assets, blueprints, SetInsert native depPath)
  else
    match assetClassName depPath with
    | some c =>
        if c = "Blueprint" then (assets, SetInsert blueprints depPath, native)
        else (SetInsert assets depPath, blueprints, native)
    | none => (SetInsert assets depPath, blueprints, native)

/-- The dependency-classification loop over the asset registry's
`GetDependencies` result, producing (assets, blueprints, native classes). -/
def ClassifyDependencies (assetClassName : String → Option String)
    (bIncludeEngineClasses : Bool) (deps : List String) :
    List String × List String × List String :=
  deps.foldl (ClassifyStep assetClassName bIncludeEngineClasses) ([], [], [])

/-- The resolved call targets of the graph walk: every `UK2Node_CallFunction`
whose `GetTargetFunction()` is non-null, in graph-then-node order. -/
def CallTargets : List Graph → List FunctionRef
  | [] => []
  | g :: rest =>
      g.nodes.filterMap (fun n =>
        match n.kind with
        | .callFunction (some f) _ => some f
        | _ => none)
      ++ CallTargets rest

/-- The `"OwningType::FunctionName"` key of a call, `"Unknown"` when the owner
class is null. -/
def FunctionCallKey (f : FunctionRef) : String :=
  (match f.ownerClass with
   | some c => c.name
   | none => "Unknown") ++ "::" ++ f.name

/-- The call-count filter condition, verbatim from the source:
`bIncludeEngineClasses || !FunctionKey.StartsWith("U") || !GetOwnerClass() ||
!GetOwnerClass()->GetPathName().StartsWith("/Script/Engine")`. -/
def IncludeCall (bIncludeEngineClasses : Bool) (f : FunctionRef) : Bool :=
  bIncludeEngineClasses
  || !(FStringStartsWith (FunctionCallKey f) "U")
  || (match f.ownerClass with
      | none => true
      | some c => !(FStringStartsWith c.pathName "/Script/Engine"))

/-- `TMap<FString,int32>::FindOrAdd` followed by `Count++`: bump an existing
key in place, or append a fresh key with count 1. -/
def BumpCall : List (String × Nat) → String → List (String × Nat)
  | [], k => [(k, 1)]
  | (k', v) :: rest, k =>
      if k' = k then (k', v + 1) :: rest else (k', v) :: BumpCall rest k

/-- The function-call analysis loop of `HandleGetBlueprintDependencies`. -/
def AnalyzeFunctionCalls (bIncludeEngineClasses : Bool) (gs : List Graph) :
    List (String × Nat) :=
  (CallTargets gs).foldl
    (fun m f =>
      if IncludeCall bIncludeEngineClasses f then BumpCall m (FunctionCallKey f) else m)
    []

/-- The host-side registry state consumed by the dependencies handler:
`GetDependencies` of the blueprint's package, and `GetAssetByObjectPath`. -/
structure DependenciesHost where
  dependencies : List String
  assetClassName : String → Option String

/-- `HandleGetBlueprintDependencies`, from blueprint resolution onward.  The
`bRecursive` flag is read but has no effect, exactly as in the source.  Note:
the success response carries no `success` field. -/
def HandleGetBlueprintDependencies (host : DependenciesHost) (bp : Blueprint)
    (bIncludeEngineClasses bRecursive : Bool) : Json :=
  let (assets, blueprints, native) :=
    ClassifyDependencies host.assetClassName bIncludeEngineClasses host.dependencies
  let calls := AnalyzeFunctionCalls bIncludeEngineClasses bp.graphs
  .obj [("blueprint_path", .str bp.pathName),
        ("assets", .arr (assets.map Json.str)),
        ("blueprints", .arr (blueprints.map Json.str)),
        ("native_classes", .arr (native.map Json.str)),
        ("function_calls", .arr (calls.map (fun pr =>
          Json.obj [("function", .str pr.1), ("call_count", .num (pr.2 : Int))])))]

/-- A class as resolved by `FindObject`/`LoadClass`, with the function names
`FindFunctionByName` can resolve on it. -/
structure HostClass where
  ref : ClassRef
  functions : List String

/-- The host-side environment of the redirect command: target-class resolution
plus the file-writing host. -/
structure RedirectHost where
  findTargetClass : String → Option HostClass
  fsWriteOk : Bool
  exportDir : String
  nowStamp : String

structure RedirectParams where
  sourceFunction : String
  targetClass : String
  targetFunction : String
  dryRun : Bool
  backup : Bool

/-- One entry of the `changes` array built during discovery. -/
def ChangeJson (graphName : String) (n : Node) (f : FunctionRef)
    (newCls : ClassRef) (newFn : String) : Json :=
  .obj [("graph", .str graphName),
        ("node_guid", .str n.guid),
        ("original_function", .str
          ((match f.ownerClass with
            | some c => c.name
            | none => "Unknown") ++ "::" ++ f.name)),
        ("new_function", .str (newCls.name ++ "::" ++ newFn)),
        ("pos_x", .num n.posX),
        ("pos_y", .num n.posY)]

/-- The per-graph discovery scan: call-function nodes whose resolved target's
name equals `source_function`, in node order. -/
def DiscoverInGraph (sourceFunction : String) (g : Graph) : List (Node × FunctionRef) :=
  g.nodes.filterMap (fun n =>
    match n.kind with
    | .callFunction (some f) _ =>
        if f.name = sourceFunction then some (n, f) else none
    | _ => none)

/-- The discovery pass over `GetAllGraphs`: the ordered list of
(graph name, node, resolved target) matches. -/
def DiscoverCalls (sourceFunction : String) : List Graph → List (String × Node × FunctionRef)
  | [] => []
  | g :: rest =>
      (DiscoverInGraph sourceFunction g).map (fun m => (g.name, m))
      ++ DiscoverCalls sourceFunction rest

/-- `CallNode->SetFromFunction(NewFunction)`, applied to the nodes the
discovery pass matched: the call target of every call-function node resolving
to `source_function` becomes the resolved new function. -/
def RedirectNode (newRef : FunctionRef) (sourceFunction : String) (n : Node) : Node :=
  match n.kind with
  | .callFunction (some f) isPure =>
      if f.name = sourceFunction then
        { n with kind := .callFunction (some newRef) isPure }
      else n
  | _ => n

/-- The apply loop's effect on the blueprint state. -/
def ApplyRedirects (sourceFunction : String) (newRef : FunctionRef) (bp : Blueprint) :
    Blueprint :=
  { bp with
    graphs := bp.graphs.map (fun g =>
      { g with nodes := g.nodes.map (RedirectNode newRef sourceFunction) }),
    functionGraphs := bp.functionGraphs.map (fun g =>
      { g with nodes := g.nodes.map (RedirectNode newRef sourceFunction) }) }

/-- The apply loop's counter: incremented once, unconditionally, per
discovered node. -/
def CountRedirects (matched : List (String × Node × FunctionRef)) : Nat :=
  matched.foldl (fun c _ => c + 1) 0

/-- `HandleRedirectFunctionCall`, from blueprint resolution onward:
resolve the target class and function (abort before any mutation on failure),
discover, then preview (dry run), short-circuit on no matches, or apply with
optional pre-mutation backup. -/
def HandleRedirectFunctionCall (host : RedirectHost) (bp : Blueprint)
    (p : RedirectParams) : CommandResult :=
  match host.findTargetClass p.targetClass with
  | none =>
      { response := FUnrealMCPCommonUtils.CreateErrorResponse
          ("Target class not found: " ++ p.targetClass),
        blueprint := bp, writtenFiles := [], markedModified := false }
  | some cls =>
      if p.targetFunction ∈ cls.functions then
        let newRef : FunctionRef := { name := p.targetFunction, ownerClass := some cls.ref }
        let matched := DiscoverCalls p.sourceFunction bp.graphs
        let changes := matched.map (fun m => ChangeJson m.1 m.2.1 m.2.2 cls.ref p.targetFunction)
        let base : List (String × Json) :=
          [("source_blueprint", .str bp.pathName),
           ("dry_run", .bool p.dryRun),
           ("nodes_found", .num (matched.length : Int)),
           ("changes", .arr changes)]
        if matched.length = 0 then
          { response := .obj (base ++
              [("message", .str "No matching function calls found to redirect")]),
            blueprint := bp, writtenFiles := [], markedModified := false }
        else if p.dryRun then
          { response := .obj (base ++
              [("message", .str ("Dry run: Found " ++ toString matched.length
                ++ " function calls to redirect"))]),
            blueprint := bp, writtenFiles := [], markedModified := false }
        else
          let backupWrite : String × List (String × Json) :=
            if p.backup then
              let fileName := "backup_" ++ bp.name ++ "_" ++ host.nowStamp ++ ".json"
              let backupJson : Json :=
                .obj [("blueprint_path", .str bp.pathName),
                      ("backup_time", .str host.nowStamp),
                      ("original_state", .arr changes)]
              WriteJsonToTempFile host.fsWriteOk host.exportDir fileName backupJson
            else ("", [])
          let backupField : List (String × Json) :=
            if p.backup then [("backup_path", .str backupWrite.1)] else []
          let bp2 := ApplyRedirects p.sourceFunction newRef bp
          let redirected := CountRedirects matched
          { response := .obj (base ++ backupField ++
              [("nodes_redirected", .num (redirected : Int)),
               ("message", .str ("Successfully redirected " ++ toString redirected
                 ++ " function calls")),
               ("requires_compile", .bool true)]),
            blueprint := bp2, writtenFiles := backupWrite.2, markedModified := true }
      else
        { response := FUnrealMCPCommonUtils.CreateErrorResponse
            ("Target function not found: " ++ p.targetClass ++ "::" ++ p.targetFunction),
          blueprint := bp, writtenFiles := [], markedModified := false }

end FUnrealMCPBlueprintMigrationCommands

/-- The invariant the classification fold maintains: each bucket only holds
identifiers it could have classified, and each bucket is duplicate-free. -/
def ClassifyInv (assetClassName : String → Option String)
    (acc : List String × List String × List String) : Prop :=
  (∀ x ∈ acc.1, ¬ FStringStartsWith x "/Script/" = true ∧ assetClassName x ≠ some "Blueprint")
  ∧ (∀ x ∈ acc.2.1, ¬ FStringStartsWith x "/Script/" = true ∧ assetClassName x = some "Blueprint")
  ∧ (∀ x ∈ acc.2.2, FStringStartsWith x "/Script/" = true)
  ∧ acc.1.Nodup ∧ acc.2.1.Nodup ∧ acc.2.2.Nodup

/-- A call-function node invoking an engine function whose owner class name
(`Actor`) does not start with `U`. -/
def engineActorCallNode : Node :=
  { guid := "N1", className := "K2Node_CallFunction", title := "Destroy Actor",
    posX := 0, posY := 0, comment := "", commentBubbleVisible := false,
    kind := .callFunction
      (some { name := "DestroyActor",
              ownerClass := some { name := "Actor", pathName := "/Script/Engine.Actor" } })
      false,
    pins := [] }

def engineCallGraphs : List Graph :=
  [{ name := "EventGraph", className := "EdGraph", nodes := [engineActorCallNode] }]

/-- Two call nodes sharing the key `UFoo::Bar`: one engine-owned, one
project-owned. -/
def collidingKeyGraphs : List Graph :=
  [{ name := "EventGraph", className := "EdGraph",
     nodes :=
      [{ guid := "N1", className := "K2Node_CallFunction", title := "Bar",
         posX := 0, posY := 0, comment := "", commentBubbleVisible := false,
         kind := .callFunction
           (some { name := "Bar",
                   ownerClass := some { name := "UFoo", pathName := "/Script/Engine.Foo" } })
           false,
         pins := [] },
       { guid := "N2", className := "K2Node_CallFunction", title := "Bar",
         posX := 0, posY := 0, comment := "", commentBubbleVisible := false,
         kind := .callFunction
           (some { name := "Bar",
                   ownerClass := some { name := "UFoo", pathName := "/Game/Foo" } })
           false,
         pins := [] }] }]

/-- Projection separating the two serializers' outputs: the `comment` field of
the first entry of the document's `nodes` array. -/
def FirstNodeCommentField (doc : Json) : Option Json :=
  match doc.getField "nodes" with
  | some (.arr (n :: _)) => n.getField "comment"
  | _ => none

/-- A one-node graph whose node carries a comment. -/
def commentedNode : Node :=
  { guid := "N1", className := "K2Node_CallFunction", title := "T",
    posX := 1, posY := 2, comment := "hello", commentBubbleVisible := true,
    kind := .other, pins := [] }

def commentedGraph : Graph :=
  { name := "MyFunc", className := "EdGraph", nodes := [commentedNode] }

/-- Concrete redirect fixtures shared by the redirect-engine claims. -/
def exClassC : ClassRef := { name := "C", pathName := "/Game/C" }

def exRedirectHost : FUnrealMCPBlueprintMigrationCommands.RedirectHost :=
  { findTargetClass := fun s =>
      if s = "C" then some { ref := exClassC, functions := ["OldFunc", "NewFunc"] } else none,
    fsWriteOk := true, exportDir := "/Exports", nowStamp := "20260101_000000" }

def exCallNodeOld : Node :=
  { guid := "G1", className := "K2Node_CallFunction", title := "Old",
    posX := 0, posY := 0, comment := "", commentBubbleVisible := false,
    kind := .callFunction (some { name := "OldFunc", ownerClass := some exClassC }) false,
    pins := [] }

def exBlueprint : Blueprint :=
  { name := "BP", pathName := "/Game/BP.BP", parentClass := none,
    graphs := [{ name := "EventGraph", className := "EdGraph", nodes := [exCallNodeOld] }],
    functionGraphs := [] }

/-- A same-name redirect: `OldFunc` is redirected to `C::OldFunc`. -/
def exParamsSameName : FUnrealMCPBlueprintMigrationCommands.RedirectParams :=
  { sourceFunction := "OldFunc", targetClass := "C", targetFunction := "OldFunc",
    dryRun := false, backup := false }

def exParamsNewName : FUnrealMCPBlueprintMigrationCommands.RedirectParams :=
  { sourceFunction := "OldFunc", targetClass := "C", targetFunction := "NewFunc",
    dryRun := false, backup := false }

/-! ## Reparent engine (`HandleSetBlueprintParentClass`) -/
namespace FUnrealMCPBlueprintMigrationCommands

/-- The host-side environment of the reparent command: `FindObject<UClass>` and
`LoadClass<UObject>` resolution plus the file-writing host.  The compatibility
check against the old parent's superclass only emits a log warning, so it has
no observable effect here. -/
structure ReparentHost where
  findClass : String → Option ClassRef
  loadClass : String → Option ClassRef
  fsWriteOk : Bool
  exportDir : String
  nowStamp : String

structure ReparentParams where
  newParentClass : String
  backup : Bool

/-- The parent-class resolution chain: exact `FindObject`, then `LoadClass`,
then `FindObject` with the conventional `A` prefix, then with `U`. -/
def ResolveParentClass (host : ReparentHost) (name : String) : Option ClassRef :=
  match host.findClass name with
  | some c => some c
  | none =>
      match host.loadClass name with
      | some c => some c
      | none =>
          match host.findClass ("A" ++ name) with
          | some c => some c
          | none => host.findClass ("U" ++ name)

/-- `HandleSetBlueprintParentClass`, from blueprint resolution onward. -/
def HandleSetBlueprintParentClass (host : ReparentHost) (bp : Blueprint)
    (p : ReparentParams) : CommandResult :=
  let oldParentName := match bp.parentClass with | some c => c.name | none => "None"
  let oldParentPath := match bp.parentClass with | some c => c.pathName | none => ""
  match ResolveParentClass host p.newParentClass with
  | none =>
      { response := FUnrealMCPCommonUtils.CreateErrorResponse
          ("Parent class not found: " ++ p.newParentClass),
        blueprint := bp, writtenFiles := [], markedModified := false }
  | some newCls =>
      let backupWrite : String × List (String × Json) :=
        if p.backup then
          let backupJson : Json :=
            .obj [("blueprint_path", .str bp.pathName),
                  ("old_parent_class", .str oldParentName),
                  ("old_parent_class_path", .str oldParentPath),
                  ("new_parent_class", .str newCls.name),
                  ("backup_time", .str host.nowStamp)]
          let fileName := "backup_reparent_" ++ bp.name ++ "_" ++ host.nowStamp ++ ".json"
          WriteJsonToTempFile host.fsWriteOk host.exportDir fileName backupJson
        else ("", [])
      let bp2 : Blueprint := { bp with parentClass := some newCls }
      { response :=
          .obj ([("success", .bool true),
                 ("blueprint_path", .str bp.pathName),
                 ("old_parent_class", .str oldParentName),
                 ("new_parent_class", .str newCls.name),
                 ("new_parent_class_path", .str newCls.pathName)]
                ++ (if backupWrite.1 = "" then [] else [("backup_path", Json.str backupWrite.1)])
                ++ [("requires_compile", .bool true),
                    ("message", .str ("Successfully reparented Blueprint from '"
                      ++ oldParentName ++ "' to '" ++ newCls.name ++ "'"))]),
        blueprint := bp2, writtenFiles := backupWrite.2, markedModified := true }

end FUnrealMCPBlueprintMigrationCommands

/-- A dry-run invocation of the redirect fixtures. -/
def exParamsDry : FUnrealMCPBlueprintMigrationCommands.RedirectParams :=
  { sourceFunction := "OldFunc", targetClass := "C", targetFunction := "NewFunc",
    dryRun := true, backup := true }

def exFileHost : FileHost :=
  { fsWriteOk := true, exportDir := "/Exports", nowStamp := "20260101_000000" }

/-- Deleting a function name no graph carries (e.g. one already deleted). -/
def exDeleteParamsMissing : FDeleteBlueprintFunctionCommand.DeleteParams :=
  { functionName := "Gone", backup := true }

/-- A dependencies-handler invocation on a blueprint with one plain asset
dependency: the handler succeeds and returns the classified sets. -/
def depsHostEx : FUnrealMCPBlueprintMigrationCommands.DependenciesHost :=
  { dependencies := ["/Game/Other"], assetClassName := fun _ => none }

def depsBlueprintEx : Blueprint :=
  { name := "BP", pathName := "/Game/BP.BP", parentClass := none,
    graphs := [], functionGraphs := [] }

def exRedirectHostNoFs : FUnrealMCPBlueprintMigrationCommands.RedirectHost :=
  { exRedirectHost with fsWriteOk := false }

def exParamsApplyBackup : FUnrealMCPBlueprintMigrationCommands.RedirectParams :=
  { sourceFunction := "OldFunc", targetClass := "C", targetFunction := "NewFunc",
    dryRun := false, backup := true }

def exFileHostNoFs : FileHost := { exFileHost with fsWriteOk := false }

def exDeleteBlueprint : Blueprint :=
  { name := "BP", pathName := "/Game/BP.BP", parentClass := none,
    graphs := [commentedGraph], functionGraphs := [] }

def exDeleteParams : FDeleteBlueprintFunctionCommand.DeleteParams :=
  { functionName := "MyFunc", backup := true }

def exReparentHostNoFs : FUnrealMCPBlueprintMigrationCommands.ReparentHost :=
  { findClass := fun s =>
      if s = "Pawn" then some { name := "Pawn", pathName := "/Script/Engine.Pawn" } else none,
    loadClass := fun _ => none,
    fsWriteOk := false, exportDir := "/Exports", nowStamp := "20260101_000000" }

def exReparentParams : FUnrealMCPBlueprintMigrationCommands.ReparentParams :=
  { newParentClass := "Pawn", backup := true }

/-! ## Theorems -/

theorem partitionPinJsons_fst (l : List Pin) :
    (FUnrealMCPBlueprintMigrationCommands.PartitionPinJsons l).1 =
      (l.filter (fun p => p.direction = PinDirection.input)).map
        (fun p => FUnrealMCPBlueprintMigrationCommands.SerializePin p true) := by
  induction l with
  | nil => rfl
  | cons p rest ih =>
      simp only [FUnrealMCPBlueprintMigrationCommands.PartitionPinJsons, List.filter]
      cases hd : p.direction <;> simp [hd, ih]

theorem partitionPinJsons_snd (l : List Pin) :
    (FUnrealMCPBlueprintMigrationCommands.PartitionPinJsons l).2 =
      (l.filter (fun p => p.direction = PinDirection.output)).map
        (fun p => FUnrealMCPBlueprintMigrationCommands.SerializePin p true) := by
  induction l with
  | nil => rfl
  | cons p rest ih =>
      simp only [FUnrealMCPBlueprintMigrationCommands.PartitionPinJsons, List.filter]
      cases hd : p.direction <;> simp [hd, ih]

theorem lookupField_append (l1 l2 : List (String × Json)) (k : String) :
    lookupField (l1 ++ l2) k =
      match lookupField l1 k with
      | some v => some v
      | none => lookupField l2 k := by
  induction l1 with
  | nil => rfl
  | cons kv rest ih =>
      obtain ⟨k', v⟩ := kv
      by_cases h : k' = k <;> simp [lookupField, h, ih]

theorem lookup_nodeTypeFields_pins (kind : NodeKind) (k : String)
    (h1 : k ≠ "node_type") (h2 : k ≠ "function_name") (h3 : k ≠ "function_class")
    (h4 : k ≠ "function_class_path") (h5 : k ≠ "is_pure") (h6 : k ≠ "event_name")
    (h7 : k ≠ "event_class") (h8 : k ≠ "variable_name") (h9 : k ≠ "action_name")
    (h10 : k ≠ "macro_name") :
    lookupField (FUnrealMCPBlueprintMigrationCommands.NodeTypeFields kind) k = none := by
  unfold FUnrealMCPBlueprintMigrationCommands.NodeTypeFields
  cases kind <;> (repeat' split) <;>
    simp [lookupField, lookupField_append, Ne.symm h1, Ne.symm h2, Ne.symm h3, Ne.symm h4,
      Ne.symm h5, Ne.symm h6, Ne.symm h7, Ne.symm h8, Ne.symm h9, Ne.symm h10]

theorem serializeGraph_getField_nodes (g : Graph) (b : Bool) :
    (FUnrealMCPBlueprintMigrationCommands.SerializeGraph g b).getField "nodes" =
      some (.arr (g.nodes.map FUnrealMCPBlueprintMigrationCommands.SerializeNode)) := by
  simp [FUnrealMCPBlueprintMigrationCommands.SerializeGraph, Json.getField, lookupField]

theorem serializeNode_getField_input_pins (n : Node) :
    (FUnrealMCPBlueprintMigrationCommands.SerializeNode n).getField "input_pins" =
      some (.arr ((n.pins.filter (fun p => p.direction = PinDirection.input)).map
        (fun p => FUnrealMCPBlueprintMigrationCommands.SerializePin p true))) := by
  have hntf := lookup_nodeTypeFields_pins n.kind "input_pins" (by decide) (by decide)
    (by decide) (by decide) (by decide) (by decide) (by decide) (by decide) (by decide)
    (by decide)
  simp [FUnrealMCPBlueprintMigrationCommands.SerializeNode, Json.getField,
    lookupField_append, lookupField, hntf, partitionPinJsons_fst]

theorem serializeNode_getField_output_pins (n : Node) :
    (FUnrealMCPBlueprintMigrationCommands.SerializeNode n).getField "output_pins" =
      some (.arr ((n.pins.filter (fun p => p.direction = PinDirection.output)).map
        (fun p => FUnrealMCPBlueprintMigrationCommands.SerializePin p true))) := by
  have hntf := lookup_nodeTypeFields_pins n.kind "output_pins" (by decide) (by decide)
    (by decide) (by decide) (by decide) (by decide) (by decide) (by decide) (by decide)
    (by decide)
  simp [FUnrealMCPBlueprintMigrationCommands.SerializeNode, Json.getField,
    lookupField_append, lookupField, hntf, partitionPinJsons_snd]

theorem serializePin_getField_connections (p : Pin) :
    (FUnrealMCPBlueprintMigrationCommands.SerializePin p true).getField "connections" =
      (if p.linkedTo = [] then none
       else some (.arr (p.linkedTo.map
         FUnrealMCPBlueprintMigrationCommands.SerializeConnection))) := by
  simp only [FUnrealMCPBlueprintMigrationCommands.SerializePin, Json.getField]
  (repeat' split) <;> simp_all [lookupField, lookupField_append]

/-- C1: for every graph and every fixed setting of the serialization flags,
serializing twice without an intervening change yields two identical documents
(the serializer is a pure function of the graph and the flags), and the
document's orders are the graph's own stored orders: the node list is the map
of the serializer over `Graph->Nodes` in place, each node's `input_pins` and
`output_pins` lists keep declared pin order split by direction, and each pin's
`connections` list is the pin's `LinkedTo` order — nothing is hashed or
alphabetized. -/
theorem C1_serialization_deterministic_and_order_preserving (g : Graph) (b : Bool) :
    FUnrealMCPBlueprintMigrationCommands.SerializeGraph g b =
      FUnrealMCPBlueprintMigrationCommands.SerializeGraph g b
    ∧ (FUnrealMCPBlueprintMigrationCommands.SerializeGraph g b).getField "nodes" =
        some (.arr (g.nodes.map FUnrealMCPBlueprintMigrationCommands.SerializeNode))
    ∧ (∀ n : Node,
        (FUnrealMCPBlueprintMigrationCommands.SerializeNode n).getField "input_pins" =
          some (.arr ((n.pins.filter (fun p => p.direction = PinDirection.input)).map
            (fun p => FUnrealMCPBlueprintMigrationCommands.SerializePin p true)))
        ∧ (FUnrealMCPBlueprintMigrationCommands.SerializeNode n).getField "output_pins" =
          some (.arr ((n.pins.filter (fun p => p.direction = PinDirection.output)).map
            (fun p => FUnrealMCPBlueprintMigrationCommands.SerializePin p true))))
    ∧ (∀ p : Pin,
        (FUnrealMCPBlueprintMigrationCommands.SerializePin p true).getField "connections" =
          (if p.linkedTo = [] then none
           else some (.arr (p.linkedTo.map
             FUnrealMCPBlueprintMigrationCommands.SerializeConnection)))) :=
  ⟨rfl, serializeGraph_getField_nodes g b,
   fun n => ⟨serializeNode_getField_input_pins n, serializeNode_getField_output_pins n⟩,
   fun p => serializePin_getField_connections p⟩

theorem mem_setInsert (s : List String) (x y : String) :
    y ∈ FUnrealMCPBlueprintMigrationCommands.SetInsert s x ↔ y ∈ s ∨ y = x := by
  simp only [FUnrealMCPBlueprintMigrationCommands.SetInsert]
  split
  · rename_i hx
    constructor
    · exact fun h => Or.inl h
    · rintro (h | rfl) <;> [exact h; exact hx]
  · simp

theorem nodup_setInsert (s : List String) (x : String) (h : s.Nodup) :
    (FUnrealMCPBlueprintMigrationCommands.SetInsert s x).Nodup := by
  simp only [FUnrealMCPBlueprintMigrationCommands.SetInsert]
  split
  · exact h
  · rename_i hx
    simpa [List.nodup_append, h] using hx

theorem classifyStep_inv (assetClassName : String → Option String) (b : Bool)
    (acc : List String × List String × List String) (d : String)
    (h : ClassifyInv assetClassName acc) :
    ClassifyInv assetClassName
      (FUnrealMCPBlueprintMigrationCommands.ClassifyStep assetClassName b acc d) := by
  obtain ⟨assets, blueprints, native⟩ := acc
  obtain ⟨ha, hb, hn, hna, hnb, hnn⟩ := h
  simp only [FUnrealMCPBlueprintMigrationCommands.ClassifyStep]
  split
  · exact ⟨ha, hb, hn, hna, hnb, hnn⟩
  · rename_i hskip
    split
    · rename_i hscript
      refine ⟨ha, hb, ?_, hna, hnb, nodup_setInsert _ _ hnn⟩
      intro x hx
      rcases (mem_setInsert _ _ _).1 hx with h' | rfl
      · exact hn x h'
      · exact hscript
    · rename_i hscript
      split
      · rename_i c hc
        split
        · rename_i hbpc
          refine ⟨ha, ?_, hn, hna, nodup_setInsert _ _ hnb, hnn⟩
          intro x hx
          rcases (mem_setInsert _ _ _).1 hx with h' | rfl
          · exact hb x h'
          · exact ⟨hscript, by rw [hc, hbpc]⟩
        · rename_i hbpc
          refine ⟨?_, hb, hn, nodup_setInsert _ _ hna, hnb, hnn⟩
          intro x hx
          rcases (mem_setInsert _ _ _).1 hx with h' | rfl
          · exact ha x h'
          · refine ⟨hscript, ?_⟩
            rw [hc]
            simp
            rintro rfl
            exact hbpc rfl
      · rename_i hc
        refine ⟨?_, hb, hn, nodup_setInsert _ _ hna, hnb, hnn⟩
        intro x hx
        rcases (mem_setInsert _ _ _).1 hx with h' | rfl
        · exact ha x h'
        · exact ⟨hscript, by rw [hc]; simp⟩

theorem classifyDependencies_inv (assetClassName : String → Option String) (b : Bool)
    (deps : List String) :
    ClassifyInv assetClassName
      (FUnrealMCPBlueprintMigrationCommands.ClassifyDependencies assetClassName b deps) := by
  have gen : ∀ (l : List String) acc, ClassifyInv assetClassName acc →
      ClassifyInv assetClassName
        (l.foldl (FUnrealMCPBlueprintMigrationCommands.ClassifyStep assetClassName b) acc) := by
    intro l
    induction l with
    | nil => exact fun acc h => h
    | cons d rest ih =>
        intro acc h
        exact ih _ (classifyStep_inv assetClassName b acc d h)
  exact gen deps ([], [], []) (by refine ⟨?_, ?_, ?_, ?_, ?_, ?_⟩ <;> simp [List.Nodup])

/-- C3: the three dependency buckets — assets, blueprints (sub-subjects) and
native classes — are pairwise disjoint and each is free of duplicates, for
every asset-registry view, every `include_engine_classes` setting and every
dependency list.  Each identifier is classified by mutually exclusive
conditions (`/Script/` prefix; registry class `Blueprint`; everything else)
and each bucket is a `TSet`, so insertion deduplicates. -/
theorem C3_dependency_buckets_disjoint_and_deduplicated
    (assetClassName : String → Option String) (b : Bool) (deps : List String) :
    ((FUnrealMCPBlueprintMigrationCommands.ClassifyDependencies assetClassName b deps).1.Nodup
    ∧ (FUnrealMCPBlueprintMigrationCommands.ClassifyDependencies assetClassName b deps).2.1.Nodup
    ∧ (FUnrealMCPBlueprintMigrationCommands.ClassifyDependencies assetClassName b deps).2.2.Nodup)
    ∧ (∀ x, x ∈ (FUnrealMCPBlueprintMigrationCommands.ClassifyDependencies assetClassName b deps).1 →
        x ∉ (FUnrealMCPBlueprintMigrationCommands.ClassifyDependencies assetClassName b deps).2.1)
    ∧ (∀ x, x ∈ (FUnrealMCPBlueprintMigrationCommands.ClassifyDependencies assetClassName b deps).1 →
        x ∉ (FUnrealMCPBlueprintMigrationCommands.ClassifyDependencies assetClassName b deps).2.2)
    ∧ (∀ x, x ∈ (FUnrealMCPBlueprintMigrationCommands.ClassifyDependencies assetClassName b deps).2.1 →
        x ∉ (FUnrealMCPBlueprintMigrationCommands.ClassifyDependencies assetClassName b deps).2.2) := by
  obtain ⟨ha, hb, hn, hna, hnb, hnn⟩ := classifyDependencies_inv assetClassName b deps
  refine ⟨⟨hna, hnb, hnn⟩, ?_, ?_, ?_⟩
  · intro x hx hx'
    exact (ha x hx).2 (hb x hx').2
  · intro x hx hx'
    exact (ha x hx).1 (hn x hx')
  · intro x hx hx'
    exact (hb x hx).1 (hn x hx')

theorem mem_keys_bumpCall (m : List (String × Nat)) (k k' : String) :
    (k ∈ (FUnrealMCPBlueprintMigrationCommands.BumpCall m k').map Prod.fst) ↔
      k ∈ m.map Prod.fst ∨ k = k' := by
  induction m with
  | nil => simp [FUnrealMCPBlueprintMigrationCommands.BumpCall, eq_comm]
  | cons kv rest ih =>
      obtain ⟨k0, v0⟩ := kv
      by_cases h : k0 = k'
      · subst h
        simp only [FUnrealMCPBlueprintMigrationCommands.BumpCall, if_pos rfl]
        simp
        tauto
      · simp only [FUnrealMCPBlueprintMigrationCommands.BumpCall, if_neg h]
        simp [ih]
        tauto

theorem mem_keys_callFold (b : Bool) (refs : List FunctionRef)
    (m : List (String × Nat)) (k : String) :
    (k ∈ (refs.foldl
        (fun m f =>
          if FUnrealMCPBlueprintMigrationCommands.IncludeCall b f then
            FUnrealMCPBlueprintMigrationCommands.BumpCall m
              (FUnrealMCPBlueprintMigrationCommands.FunctionCallKey f)
          else m)
        m).map Prod.fst) ↔
      k ∈ m.map Prod.fst
      ∨ ∃ f ∈ refs, FUnrealMCPBlueprintMigrationCommands.IncludeCall b f = true
          ∧ FUnrealMCPBlueprintMigrationCommands.FunctionCallKey f = k := by
  induction refs generalizing m with
  | nil => simp
  | cons f rest ih =>
      simp only [List.foldl_cons]
      by_cases hf : FUnrealMCPBlueprintMigrationCommands.IncludeCall b f = true
      · rw [if_pos hf, ih, mem_keys_bumpCall]
        simp only [List.mem_cons]
        constructor
        · rintro ((h | rfl) | ⟨g, hg, hgi, hgk⟩)
          · exact Or.inl h
          · exact Or.inr ⟨f, Or.inl rfl, hf, rfl⟩
          · exact Or.inr ⟨g, Or.inr hg, hgi, hgk⟩
        · rintro (h | ⟨g, (rfl | hg), hgi, hgk⟩)
          · exact Or.inl (Or.inl h)
          · exact Or.inl (Or.inr hgk.symm)
          · exact Or.inr ⟨g, hg, hgi, hgk⟩
      · rw [if_neg hf, ih]
        simp only [List.mem_cons]
        constructor
        · rintro (h | ⟨g, hg, hgi, hgk⟩)
          · exact Or.inl h
          · exact Or.inr ⟨g, Or.inr hg, hgi, hgk⟩
        · rintro (h | ⟨g, (rfl | hg), hgi, hgk⟩)
          · exact Or.inl h
          · exact absurd hgi hf
          · exact Or.inr ⟨g, hg, hgi, hgk⟩

/-- C2 counterexample: with `include_engine_classes` unset, a call node whose
resolved function's owner class path lies under `/Script/Engine` but whose
owner class name is `Actor` (so the key does not start with `U`) is NOT
dropped: the key `Actor::DestroyActor` is present in the returned map.
Moreover, even a `U`-prefixed engine-owned call's key can remain present when
a same-keyed non-engine call exists (`UFoo::Bar`). -/
theorem C2_counterexample_engine_call_key_present :
    FUnrealMCPBlueprintMigrationCommands.AnalyzeFunctionCalls false engineCallGraphs
      = [("Actor::DestroyActor", 1)]
    ∧ FUnrealMCPBlueprintMigrationCommands.AnalyzeFunctionCalls false collidingKeyGraphs
      = [("UFoo::Bar", 1)] := by
  constructor <;> decide

/-- C2 (amended): with `include_engine_classes` unset, a call is dropped from
the count exactly when its key starts with `U`, its owner class is resolved,
and the owner class path starts with `/Script/Engine`; consequently a key is
absent from `function_calls` if and only if no call node bearing that key
survives this filter.  Engine-owned calls whose key does not start with `U`
are retained, so the unqualified claim fails. -/
theorem C2_amended_engine_filter_characterization (gs : List Graph) (k : String) :
    ((k ∈ (FUnrealMCPBlueprintMigrationCommands.AnalyzeFunctionCalls false gs).map Prod.fst) ↔
      ∃ f ∈ FUnrealMCPBlueprintMigrationCommands.CallTargets gs,
        FUnrealMCPBlueprintMigrationCommands.IncludeCall false f = true
        ∧ FUnrealMCPBlueprintMigrationCommands.FunctionCallKey f = k)
    ∧ (∀ f : FunctionRef,
        FUnrealMCPBlueprintMigrationCommands.IncludeCall false f = false ↔
          (FStringStartsWith (FUnrealMCPBlueprintMigrationCommands.FunctionCallKey f) "U" = true
           ∧ ∃ c, f.ownerClass = some c ∧ FStringStartsWith c.pathName "/Script/Engine" = true)) := by
  constructor
  · simpa [FUnrealMCPBlueprintMigrationCommands.AnalyzeFunctionCalls] using
      mem_keys_callFold false (FUnrealMCPBlueprintMigrationCommands.CallTargets gs) [] k
  · intro f
    rcases hf : f.ownerClass with _ | c <;>
      simp [FUnrealMCPBlueprintMigrationCommands.IncludeCall, hf]

theorem delete_serializeNode_getField_guid (n : Node) :
    (FDeleteBlueprintFunctionCommand.SerializeNode n).getField "guid" =
      some (.str n.guid) := by
  simp [FDeleteBlueprintFunctionCommand.SerializeNode, Json.getField, lookupField]

theorem migration_serializeNode_getField_guid (n : Node) :
    (FUnrealMCPBlueprintMigrationCommands.SerializeNode n).getField "guid" =
      some (.str n.guid) := by
  simp [FUnrealMCPBlueprintMigrationCommands.SerializeNode, Json.getField,
    lookupField_append, lookupField]

theorem delete_serializeNode_getField_comment (n : Node) :
    (FDeleteBlueprintFunctionCommand.SerializeNode n).getField "comment" = none := by
  simp [FDeleteBlueprintFunctionCommand.SerializeNode, Json.getField, lookupField]

/-- C7 counterexample: on a concrete one-node graph whose node carries a
comment, the delete command's backup serializer and the monolithic
dispatcher's serializer (with `include_defaults=true`) produce different
documents — the delete backup's node entry has no `comment` field at all. -/
theorem C7_counterexample_backup_document_differs :
    FDeleteBlueprintFunctionCommand.SerializeGraph commentedGraph true ≠
      FUnrealMCPBlueprintMigrationCommands.SerializeGraph commentedGraph true := by
  intro h
  have h2 := congrArg FirstNodeCommentField h
  rw [show FirstNodeCommentField
        (FDeleteBlueprintFunctionCommand.SerializeGraph commentedGraph true) = none from rfl,
      show FirstNodeCommentField
        (FUnrealMCPBlueprintMigrationCommands.SerializeGraph commentedGraph true) =
          some (.str "hello") from rfl] at h2
  exact Option.noConfusion h2

/-- C7 (amended): the delete command's backup serializer does NOT equal the
dispatcher's §4.1 serializer.  The two agree only on the graph shell — `name`,
`class`, `node_count`, and the node identifier sequence in stored order — while
the delete backup's per-node documents omit the comment fields, the node-kind
fields, the pin flag fields and the default object/text, and flatten the pins
into a single list, so the full documents differ. -/
theorem C7_amended_delete_backup_is_reduced_not_equal (g : Graph) (b : Bool) :
    ((FDeleteBlueprintFunctionCommand.SerializeGraph g b).getField "name" =
      (FUnrealMCPBlueprintMigrationCommands.SerializeGraph g b).getField "name")
    ∧ ((FDeleteBlueprintFunctionCommand.SerializeGraph g b).getField "class" =
      (FUnrealMCPBlueprintMigrationCommands.SerializeGraph g b).getField "class")
    ∧ ((FDeleteBlueprintFunctionCommand.SerializeGraph g b).getField "node_count" =
      (FUnrealMCPBlueprintMigrationCommands.SerializeGraph g b).getField "node_count")
    ∧ (g.nodes.map (fun n =>
        (FDeleteBlueprintFunctionCommand.SerializeNode n).getField "guid") =
       g.nodes.map (fun n =>
        (FUnrealMCPBlueprintMigrationCommands.SerializeNode n).getField "guid"))
    ∧ (∀ n : Node,
        (FDeleteBlueprintFunctionCommand.SerializeNode n).getField "comment" = none)
    ∧ (∃ n : Node,
        FDeleteBlueprintFunctionCommand.SerializeNode n ≠
          FUnrealMCPBlueprintMigrationCommands.SerializeNode n) := by
  refine ⟨?_, ?_, ?_, ?_, delete_serializeNode_getField_comment, ?_⟩
  · simp [FDeleteBlueprintFunctionCommand.SerializeGraph,
      FUnrealMCPBlueprintMigrationCommands.SerializeGraph, Json.getField, lookupField]
  · simp [FDeleteBlueprintFunctionCommand.SerializeGraph,
      FUnrealMCPBlueprintMigrationCommands.SerializeGraph, Json.getField, lookupField]
  · simp [FDeleteBlueprintFunctionCommand.SerializeGraph,
      FUnrealMCPBlueprintMigrationCommands.SerializeGraph, Json.getField, lookupField]
  · simp [delete_serializeNode_getField_guid, migration_serializeNode_getField_guid]
  · refine ⟨commentedNode, ?_⟩
    intro h
    have h2 : (FDeleteBlueprintFunctionCommand.SerializeNode commentedNode).getField
          "comment" =
        (FUnrealMCPBlueprintMigrationCommands.SerializeNode commentedNode).getField
          "comment" := congrArg (fun j => Json.getField j "comment") h
    rw [show Json.getField (FDeleteBlueprintFunctionCommand.SerializeNode commentedNode)
          "comment" = none from rfl,
        show Json.getField (FUnrealMCPBlueprintMigrationCommands.SerializeNode commentedNode)
          "comment" = some (.str "hello") from rfl] at h2
    exact Option.noConfusion h2

theorem countRedirects_eq_length (m : List (String × Node × FunctionRef)) :
    FUnrealMCPBlueprintMigrationCommands.CountRedirects m = m.length := by
  have gen : ∀ (l : List (String × Node × FunctionRef)) (k : Nat),
      l.foldl (fun c _ => c + 1) k = k + l.length := by
    intro l
    induction l with
    | nil => simp
    | cons x xs ih =>
        intro k
        simp only [List.foldl_cons, List.length_cons, ih]
        omega
  simpa [FUnrealMCPBlueprintMigrationCommands.CountRedirects] using gen m 0

theorem discoverInGraph_after_redirect (src : String) (newRef : FunctionRef)
    (h : newRef.name ≠ src) (name className : String) (nodes : List Node) :
    FUnrealMCPBlueprintMigrationCommands.DiscoverInGraph src
      { name := name, className := className,
        nodes := nodes.map (FUnrealMCPBlueprintMigrationCommands.RedirectNode newRef src) }
      = [] := by
  simp only [FUnrealMCPBlueprintMigrationCommands.DiscoverInGraph, List.filterMap_map]
  rw [List.filterMap_eq_nil_iff]
  intro n _
  simp only [Function.comp]
  cases hk : n.kind
  case callFunction target isPure =>
    cases target with
    | none => simp [FUnrealMCPBlueprintMigrationCommands.RedirectNode, hk]
    | some f =>
        by_cases hf : f.name = src <;>
          simp [FUnrealMCPBlueprintMigrationCommands.RedirectNode, hk, hf, h]
  all_goals simp [FUnrealMCPBlueprintMigrationCommands.RedirectNode, hk]

theorem discoverCalls_after_applyRedirects (src : String) (newRef : FunctionRef)
    (h : newRef.name ≠ src) (gs : List Graph) :
    FUnrealMCPBlueprintMigrationCommands.DiscoverCalls src
      (gs.map (fun g =>
        { g with
          nodes := g.nodes.map (FUnrealMCPBlueprintMigrationCommands.RedirectNode newRef src) }))
      = [] := by
  induction gs with
  | nil => rfl
  | cons g rest ih =>
      simp only [List.map_cons, FUnrealMCPBlueprintMigrationCommands.DiscoverCalls,
        discoverInGraph_after_redirect src newRef h, List.map_nil, List.nil_append, ih]

/-- C4 (amended): after a successful apply (`dry_run=false`, target resolved,
at least one node discovered, every discovered node rewritten), a subsequent
discovery pass for `source_function` on the same subject reports zero matches
— PROVIDED the target function's name differs from `source_function`.
Discovery matches on the bare function name, so redirecting to a same-named
function of another class leaves every rewritten node matching again. -/
theorem C4_amended_rediscovery_empty_after_apply (host : FUnrealMCPBlueprintMigrationCommands.RedirectHost)
    (bp : Blueprint) (p : FUnrealMCPBlueprintMigrationCommands.RedirectParams)
    (hname : p.targetFunction ≠ p.sourceFunction)
    (happly : (FUnrealMCPBlueprintMigrationCommands.HandleRedirectFunctionCall host bp p).markedModified = true) :
    (FUnrealMCPBlueprintMigrationCommands.DiscoverCalls p.sourceFunction
      (FUnrealMCPBlueprintMigrationCommands.HandleRedirectFunctionCall host bp p).blueprint.graphs).length
      = 0 := by
  cases hcls : host.findTargetClass p.targetClass with
  | none =>
      simp [FUnrealMCPBlueprintMigrationCommands.HandleRedirectFunctionCall, hcls] at happly
  | some cls =>
      simp only [FUnrealMCPBlueprintMigrationCommands.HandleRedirectFunctionCall, hcls] at happly ⊢
      by_cases hmem : p.targetFunction ∈ cls.functions
      · simp only [if_pos hmem] at happly ⊢
        by_cases hzero :
            (FUnrealMCPBlueprintMigrationCommands.DiscoverCalls p.sourceFunction bp.graphs).length = 0
        · simp [hzero] at happly
        · simp only [if_neg hzero] at happly ⊢
          by_cases hdry : p.dryRun
          · simp [hdry] at happly
          · rw [if_neg hdry]
            simp only [FUnrealMCPBlueprintMigrationCommands.ApplyRedirects]
            rw [discoverCalls_after_applyRedirects p.sourceFunction _ hname]
            rfl
      · simp [if_neg hmem] at happly

/-- C4 counterexample: a successful apply (one node discovered and redirected,
subject marked modified) whose target function bears the same name as
`source_function`; the subsequent discovery pass for `source_function` still
reports one match, not zero. -/
theorem C4_counterexample_same_name_redirect_rediscovered :
    (FUnrealMCPBlueprintMigrationCommands.HandleRedirectFunctionCall exRedirectHost exBlueprint exParamsSameName).markedModified = true
    ∧ (FUnrealMCPBlueprintMigrationCommands.HandleRedirectFunctionCall exRedirectHost exBlueprint exParamsSameName).response.getField "nodes_redirected"
        = some (.num 1)
    ∧ (FUnrealMCPBlueprintMigrationCommands.DiscoverCalls "OldFunc"
        (FUnrealMCPBlueprintMigrationCommands.HandleRedirectFunctionCall exRedirectHost exBlueprint exParamsSameName).blueprint.graphs).length
        = 1 :=
  ⟨rfl, rfl, rfl⟩

theorem C4_witness :
    exParamsNewName.targetFunction ≠ exParamsNewName.sourceFunction
    ∧ (FUnrealMCPBlueprintMigrationCommands.HandleRedirectFunctionCall exRedirectHost exBlueprint exParamsNewName).markedModified = true
    ∧ (FUnrealMCPBlueprintMigrationCommands.DiscoverCalls exParamsNewName.sourceFunction
        (FUnrealMCPBlueprintMigrationCommands.HandleRedirectFunctionCall exRedirectHost exBlueprint exParamsNewName).blueprint.graphs).length
        = 0 :=
  ⟨by decide, rfl,
   C4_amended_rediscovery_empty_after_apply exRedirectHost exBlueprint exParamsNewName
     (by decide) rfl⟩

theorem redirect_dry_run_frame (host : FUnrealMCPBlueprintMigrationCommands.RedirectHost)
    (bp : Blueprint) (p : FUnrealMCPBlueprintMigrationCommands.RedirectParams)
    (hdry : p.dryRun = true) :
    (FUnrealMCPBlueprintMigrationCommands.HandleRedirectFunctionCall host bp p).blueprint = bp
    ∧ (FUnrealMCPBlueprintMigrationCommands.HandleRedirectFunctionCall host bp p).writtenFiles = []
    ∧ (FUnrealMCPBlueprintMigrationCommands.HandleRedirectFunctionCall host bp p).markedModified = false := by
  cases hcls : host.findTargetClass p.targetClass with
  | none => simp [FUnrealMCPBlueprintMigrationCommands.HandleRedirectFunctionCall, hcls]
  | some cls =>
      simp only [FUnrealMCPBlueprintMigrationCommands.HandleRedirectFunctionCall, hcls]
      by_cases hmem : p.targetFunction ∈ cls.functions
      · simp only [if_pos hmem]
        by_cases hzero :
            (FUnrealMCPBlueprintMigrationCommands.DiscoverCalls p.sourceFunction bp.graphs).length = 0
        · simp [hzero]
        · simp [hzero, hdry]
      · simp [hmem]

/-- C5: a dry-run redirect mutates nothing — the blueprint state is unchanged,
no backup file is written, the subject is not marked modified — and repeating
the identical invocation on the (unchanged) subject returns the identical
result, in particular the same `nodes_found` and the same change-list. -/
theorem C5_dry_run_redirect_mutates_nothing
    (host : FUnrealMCPBlueprintMigrationCommands.RedirectHost) (bp : Blueprint)
    (p : FUnrealMCPBlueprintMigrationCommands.RedirectParams) (hdry : p.dryRun = true) :
    (FUnrealMCPBlueprintMigrationCommands.HandleRedirectFunctionCall host bp p).blueprint = bp
    ∧ (FUnrealMCPBlueprintMigrationCommands.HandleRedirectFunctionCall host bp p).writtenFiles = []
    ∧ (FUnrealMCPBlueprintMigrationCommands.HandleRedirectFunctionCall host bp p).markedModified = false
    ∧ FUnrealMCPBlueprintMigrationCommands.HandleRedirectFunctionCall host
        (FUnrealMCPBlueprintMigrationCommands.HandleRedirectFunctionCall host bp p).blueprint p
      = FUnrealMCPBlueprintMigrationCommands.HandleRedirectFunctionCall host bp p := by
  obtain ⟨h1, h2, h3⟩ := redirect_dry_run_frame host bp p hdry
  exact ⟨h1, h2, h3, by rw [h1]⟩

theorem C5_witness :
    exParamsDry.dryRun = true
    ∧ ((FUnrealMCPBlueprintMigrationCommands.HandleRedirectFunctionCall exRedirectHost exBlueprint exParamsDry).blueprint = exBlueprint
      ∧ (FUnrealMCPBlueprintMigrationCommands.HandleRedirectFunctionCall exRedirectHost exBlueprint exParamsDry).writtenFiles = []
      ∧ (FUnrealMCPBlueprintMigrationCommands.HandleRedirectFunctionCall exRedirectHost exBlueprint exParamsDry).markedModified = false
      ∧ FUnrealMCPBlueprintMigrationCommands.HandleRedirectFunctionCall exRedirectHost
          (FUnrealMCPBlueprintMigrationCommands.HandleRedirectFunctionCall exRedirectHost exBlueprint exParamsDry).blueprint exParamsDry
        = FUnrealMCPBlueprintMigrationCommands.HandleRedirectFunctionCall exRedirectHost exBlueprint exParamsDry) :=
  ⟨rfl, C5_dry_run_redirect_mutates_nothing exRedirectHost exBlueprint exParamsDry rfl⟩

/-- C8: `delete_function` with a `function_name` matching no graph of the
subject returns the NotFound failure envelope and has no side effects: the
blueprint is unchanged, no backup file is written, and the subject is not
marked modified. -/
theorem C8_delete_not_found_no_side_effects (host : FileHost) (bp : Blueprint)
    (q : FDeleteBlueprintFunctionCommand.DeleteParams)
    (hnf : FDeleteBlueprintFunctionCommand.FindGraphToDelete bp q.functionName = none) :
    (FDeleteBlueprintFunctionCommand.Execute host bp q).response
      = FDeleteBlueprintFunctionCommand.CreateErrorResponse
          ("Function graph not found: " ++ q.functionName)
    ∧ (FDeleteBlueprintFunctionCommand.Execute host bp q).blueprint = bp
    ∧ (FDeleteBlueprintFunctionCommand.Execute host bp q).writtenFiles = []
    ∧ (FDeleteBlueprintFunctionCommand.Execute host bp q).markedModified = false := by
  simp [FDeleteBlueprintFunctionCommand.Execute, hnf]

theorem C8_witness :
    FDeleteBlueprintFunctionCommand.FindGraphToDelete exBlueprint
        exDeleteParamsMissing.functionName = none
    ∧ ((FDeleteBlueprintFunctionCommand.Execute exFileHost exBlueprint exDeleteParamsMissing).response
        = FDeleteBlueprintFunctionCommand.CreateErrorResponse
            ("Function graph not found: " ++ exDeleteParamsMissing.functionName)
      ∧ (FDeleteBlueprintFunctionCommand.Execute exFileHost exBlueprint exDeleteParamsMissing).blueprint = exBlueprint
      ∧ (FDeleteBlueprintFunctionCommand.Execute exFileHost exBlueprint exDeleteParamsMissing).writtenFiles = []
      ∧ (FDeleteBlueprintFunctionCommand.Execute exFileHost exBlueprint exDeleteParamsMissing).markedModified = false) :=
  ⟨rfl, C8_delete_not_found_no_side_effects exFileHost exBlueprint exDeleteParamsMissing rfl⟩

/-- C10: whenever the redirect reaches the apply phase (the subject is marked
modified), the reported `nodes_redirected` equals the reported `nodes_found`:
the per-node rewrite loop increments its counter unconditionally once per
discovered node, so both counts are the number of discovered nodes and a
partial apply can never be reported. -/
theorem C10_nodes_redirected_equals_nodes_found
    (host : FUnrealMCPBlueprintMigrationCommands.RedirectHost) (bp : Blueprint)
    (p : FUnrealMCPBlueprintMigrationCommands.RedirectParams)
    (happly : (FUnrealMCPBlueprintMigrationCommands.HandleRedirectFunctionCall host bp p).markedModified = true) :
    (FUnrealMCPBlueprintMigrationCommands.HandleRedirectFunctionCall host bp p).response.getField
        "nodes_redirected"
      = some (.num ((FUnrealMCPBlueprintMigrationCommands.DiscoverCalls p.sourceFunction
          bp.graphs).length : Int))
    ∧ (FUnrealMCPBlueprintMigrationCommands.HandleRedirectFunctionCall host bp p).response.getField
        "nodes_found"
      = some (.num ((FUnrealMCPBlueprintMigrationCommands.DiscoverCalls p.sourceFunction
          bp.graphs).length : Int)) := by
  cases hcls : host.findTargetClass p.targetClass with
  | none =>
      simp [FUnrealMCPBlueprintMigrationCommands.HandleRedirectFunctionCall, hcls] at happly
  | some cls =>
      simp only [FUnrealMCPBlueprintMigrationCommands.HandleRedirectFunctionCall, hcls] at happly ⊢
      by_cases hmem : p.targetFunction ∈ cls.functions
      · simp only [if_pos hmem] at happly ⊢
        by_cases hzero :
            (FUnrealMCPBlueprintMigrationCommands.DiscoverCalls p.sourceFunction bp.graphs).length = 0
        · simp [hzero] at happly
        · simp only [if_neg hzero] at happly ⊢
          by_cases hdry : p.dryRun
          · simp [hdry] at happly
          · rw [if_neg hdry] at happly ⊢
            by_cases hb : p.backup
            · simp [hb, Json.getField, lookupField_append, lookupField,
                countRedirects_eq_length]
            · simp [hb, Json.getField, lookupField_append, lookupField,
                countRedirects_eq_length]
      · simp [hmem] at happly

theorem C10_witness :
    (FUnrealMCPBlueprintMigrationCommands.HandleRedirectFunctionCall exRedirectHost exBlueprint exParamsNewName).markedModified = true
    ∧ ((FUnrealMCPBlueprintMigrationCommands.HandleRedirectFunctionCall exRedirectHost exBlueprint exParamsNewName).response.getField
          "nodes_redirected"
        = some (.num ((FUnrealMCPBlueprintMigrationCommands.DiscoverCalls
            exParamsNewName.sourceFunction exBlueprint.graphs).length : Int))
      ∧ (FUnrealMCPBlueprintMigrationCommands.HandleRedirectFunctionCall exRedirectHost exBlueprint exParamsNewName).response.getField
          "nodes_found"
        = some (.num ((FUnrealMCPBlueprintMigrationCommands.DiscoverCalls
            exParamsNewName.sourceFunction exBlueprint.graphs).length : Int))) :=
  ⟨rfl, C10_nodes_redirected_equals_nodes_found exRedirectHost exBlueprint exParamsNewName rfl⟩

/-- C9 counterexample: the monolithic dispatcher's `get_dependencies` SUCCESS
response carries no `success` field at all (and no `error` field either), so
the claim that every operation's response contains a boolean `success` field
is false on this concrete successful invocation. -/
theorem C9_counterexample_success_field_missing :
    (FUnrealMCPBlueprintMigrationCommands.HandleGetBlueprintDependencies depsHostEx
        depsBlueprintEx false true).getField "success" = none
    ∧ (FUnrealMCPBlueprintMigrationCommands.HandleGetBlueprintDependencies depsHostEx
        depsBlueprintEx false true).getField "error" = none
    ∧ (FUnrealMCPBlueprintMigrationCommands.HandleGetBlueprintDependencies depsHostEx
        depsBlueprintEx false true).getField "assets"
      = some (.arr [.str "/Game/Other"]) :=
  ⟨rfl, rfl, rfl⟩

/-- C9 (amended): every failure response carries exactly the two fields
`success=false` and a human-readable `error` (both the per-operation modules'
`CreateErrorResponse` and the dispatcher's common error builder), and the
delete command's responses always carry a boolean `success` field; but the
dispatcher's `get_dependencies` (and `find_references` / `redirect`) success
responses omit the `success` field entirely, so the claim's universal
"contains a boolean success field" does not hold. -/
theorem C9_amended_failure_envelope_exact_success_field_partial :
    (∀ msg : String, FDeleteBlueprintFunctionCommand.CreateErrorResponse msg =
        Json.obj [("success", .bool false), ("error", .str msg)])
    ∧ (∀ msg : String, FUnrealMCPCommonUtils.CreateErrorResponse msg =
        Json.obj [("success", .bool false), ("error", .str msg)])
    ∧ (∀ (host : FileHost) (bp : Blueprint) (q : FDeleteBlueprintFunctionCommand.DeleteParams),
        ∃ b : Bool,
          (FDeleteBlueprintFunctionCommand.Execute host bp q).response.getField "success"
            = some (.bool b)) := by
  refine ⟨fun _ => rfl, fun _ => rfl, ?_⟩
  intro host bp q
  cases hnf : FDeleteBlueprintFunctionCommand.FindGraphToDelete bp q.functionName with
  | none =>
      refine ⟨false, ?_⟩
      simp [FDeleteBlueprintFunctionCommand.Execute, hnf,
        FDeleteBlueprintFunctionCommand.CreateErrorResponse, Json.getField, lookupField]
  | some g =>
      refine ⟨true, ?_⟩
      simp [FDeleteBlueprintFunctionCommand.Execute, hnf, Json.getField,
        lookupField_append, lookupField]

theorem redirect_apply_write_fail (hR : FUnrealMCPBlueprintMigrationCommands.RedirectHost)
    (bp : Blueprint) (p : FUnrealMCPBlueprintMigrationCommands.RedirectParams)
    (hfs : hR.fsWriteOk = false) (hpb : p.backup = true)
    (happly : (FUnrealMCPBlueprintMigrationCommands.HandleRedirectFunctionCall
        { hR with fsWriteOk := true } bp p).markedModified = true) :
    (FUnrealMCPBlueprintMigrationCommands.HandleRedirectFunctionCall hR bp p).markedModified = true
    ∧ (FUnrealMCPBlueprintMigrationCommands.HandleRedirectFunctionCall hR bp p).blueprint
        = (FUnrealMCPBlueprintMigrationCommands.HandleRedirectFunctionCall
            { hR with fsWriteOk := true } bp p).blueprint
    ∧ (FUnrealMCPBlueprintMigrationCommands.HandleRedirectFunctionCall hR bp p).response.getField
        "backup_path" = some (.str "")
    ∧ (FUnrealMCPBlueprintMigrationCommands.HandleRedirectFunctionCall hR bp p).response.getField
        "error" = none := by
  have hproj : ({ hR with fsWriteOk := true } :
      FUnrealMCPBlueprintMigrationCommands.RedirectHost).findTargetClass
      = hR.findTargetClass := rfl
  cases hcls : hR.findTargetClass p.targetClass with
  | none =>
      simp [FUnrealMCPBlueprintMigrationCommands.HandleRedirectFunctionCall, hproj, hcls]
        at happly
  | some cls =>
      simp only [FUnrealMCPBlueprintMigrationCommands.HandleRedirectFunctionCall, hproj, hcls]
        at happly ⊢
      by_cases hmem : p.targetFunction ∈ cls.functions
      · simp only [if_pos hmem] at happly ⊢
        by_cases hzero :
            (FUnrealMCPBlueprintMigrationCommands.DiscoverCalls p.sourceFunction bp.graphs).length = 0
        · simp [hzero] at happly
        · simp only [if_neg hzero] at happly ⊢
          by_cases hdry : p.dryRun
          · simp [hdry] at happly
          · simp only [if_neg hdry] at happly ⊢
            refine ⟨?_, ?_, ?_, ?_⟩ <;>
              simp [hpb, hfs, WriteJsonToTempFile, Json.getField, lookupField_append,
                lookupField]
      · simp [hmem] at happly

theorem delete_write_fail (hD : FileHost) (bpD : Blueprint)
    (q : FDeleteBlueprintFunctionCommand.DeleteParams)
    (hfs : hD.fsWriteOk = false) (hqb : q.backup = true)
    (happly : (FDeleteBlueprintFunctionCommand.Execute { hD with fsWriteOk := true } bpD q).markedModified = true) :
    (FDeleteBlueprintFunctionCommand.Execute hD bpD q).markedModified = true
    ∧ (FDeleteBlueprintFunctionCommand.Execute hD bpD q).blueprint
        = (FDeleteBlueprintFunctionCommand.Execute { hD with fsWriteOk := true } bpD q).blueprint
    ∧ (FDeleteBlueprintFunctionCommand.Execute hD bpD q).response.getField "backup_path" = none
    ∧ (FDeleteBlueprintFunctionCommand.Execute hD bpD q).response.getField "success"
        = some (.bool true)
    ∧ (FDeleteBlueprintFunctionCommand.Execute hD bpD q).response.getField "error" = none := by
  cases hnf : FDeleteBlueprintFunctionCommand.FindGraphToDelete bpD q.functionName with
  | none =>
      simp [FDeleteBlueprintFunctionCommand.Execute, hnf] at happly
  | some g =>
      simp only [FDeleteBlueprintFunctionCommand.Execute, hnf]
      refine ⟨?_, ?_, ?_, ?_, ?_⟩ <;>
        simp [hqb, hfs, WriteJsonToTempFile, Json.getField, lookupField_append, lookupField]

theorem reparent_write_fail (hP : FUnrealMCPBlueprintMigrationCommands.ReparentHost)
    (bpP : Blueprint) (r : FUnrealMCPBlueprintMigrationCommands.ReparentParams)
    (hfs : hP.fsWriteOk = false) (hrb : r.backup = true)
    (happly : (FUnrealMCPBlueprintMigrationCommands.HandleSetBlueprintParentClass
        { hP with fsWriteOk := true } bpP r).markedModified = true) :
    (FUnrealMCPBlueprintMigrationCommands.HandleSetBlueprintParentClass hP bpP r).markedModified = true
    ∧ (FUnrealMCPBlueprintMigrationCommands.HandleSetBlueprintParentClass hP bpP r).blueprint
        = (FUnrealMCPBlueprintMigrationCommands.HandleSetBlueprintParentClass
            { hP with fsWriteOk := true } bpP r).blueprint
    ∧ (FUnrealMCPBlueprintMigrationCommands.HandleSetBlueprintParentClass hP bpP r).response.getField
        "backup_path" = none
    ∧ (FUnrealMCPBlueprintMigrationCommands.HandleSetBlueprintParentClass hP bpP r).response.getField
        "success" = some (.bool true)
    ∧ (FUnrealMCPBlueprintMigrationCommands.HandleSetBlueprintParentClass hP bpP r).response.getField
        "error" = none := by
  have hres_eq : FUnrealMCPBlueprintMigrationCommands.ResolveParentClass
      { hP with fsWriteOk := true } r.newParentClass
      = FUnrealMCPBlueprintMigrationCommands.ResolveParentClass hP r.newParentClass := rfl
  cases hres : FUnrealMCPBlueprintMigrationCommands.ResolveParentClass hP r.newParentClass with
  | none =>
      simp [FUnrealMCPBlueprintMigrationCommands.HandleSetBlueprintParentClass, hres_eq, hres]
        at happly
  | some c =>
      simp only [FUnrealMCPBlueprintMigrationCommands.HandleSetBlueprintParentClass,
        hres_eq, hres]
      refine ⟨?_, ?_, ?_, ?_, ?_⟩ <;>
        simp [hrb, hfs, WriteJsonToTempFile, Json.getField, lookupField_append, lookupField]

/-- C6: for each mutation operation (redirect apply, delete_function,
reparent) with backup requested, a backup-file write failure does not abort
the operation: the mutation is applied exactly as it would be had the write
succeeded, the subject is still marked modified, and the response reports an
empty `backup_path` (redirect) or omits it (delete, reparent) instead of
reporting a failure. -/
theorem C6_backup_write_failure_proceeds
    (hR : FUnrealMCPBlueprintMigrationCommands.RedirectHost) (bp : Blueprint)
    (p : FUnrealMCPBlueprintMigrationCommands.RedirectParams)
    (hD : FileHost) (bpD : Blueprint) (q : FDeleteBlueprintFunctionCommand.DeleteParams)
    (hP : FUnrealMCPBlueprintMigrationCommands.ReparentHost) (bpP : Blueprint)
    (r : FUnrealMCPBlueprintMigrationCommands.ReparentParams)
    (hRfs : hR.fsWriteOk = false) (hpb : p.backup = true)
    (hRapply : (FUnrealMCPBlueprintMigrationCommands.HandleRedirectFunctionCall
        { hR with fsWriteOk := true } bp p).markedModified = true)
    (hDfs : hD.fsWriteOk = false) (hqb : q.backup = true)
    (hDapply : (FDeleteBlueprintFunctionCommand.Execute
        { hD with fsWriteOk := true } bpD q).markedModified = true)
    (hPfs : hP.fsWriteOk = false) (hrb : r.backup = true)
    (hPapply : (FUnrealMCPBlueprintMigrationCommands.HandleSetBlueprintParentClass
        { hP with fsWriteOk := true } bpP r).markedModified = true) :
    ((FUnrealMCPBlueprintMigrationCommands.HandleRedirectFunctionCall hR bp p).markedModified = true
     ∧ (FUnrealMCPBlueprintMigrationCommands.HandleRedirectFunctionCall hR bp p).blueprint
        = (FUnrealMCPBlueprintMigrationCommands.HandleRedirectFunctionCall
            { hR with fsWriteOk := true } bp p).blueprint
     ∧ (FUnrealMCPBlueprintMigrationCommands.HandleRedirectFunctionCall hR bp p).response.getField
        "backup_path" = some (.str "")
     ∧ (FUnrealMCPBlueprintMigrationCommands.HandleRedirectFunctionCall hR bp p).response.getField
        "error" = none)
    ∧ ((FDeleteBlueprintFunctionCommand.Execute hD bpD q).markedModified = true
     ∧ (FDeleteBlueprintFunctionCommand.Execute hD bpD q).blueprint
        = (FDeleteBlueprintFunctionCommand.Execute { hD with fsWriteOk := true } bpD q).blueprint
     ∧ (FDeleteBlueprintFunctionCommand.Execute hD bpD q).response.getField "backup_path" = none
     ∧ (FDeleteBlueprintFunctionCommand.Execute hD bpD q).response.getField "success"
        = some (.bool true)
     ∧ (FDeleteBlueprintFunctionCommand.Execute hD bpD q).response.getField "error" = none)
    ∧ ((FUnrealMCPBlueprintMigrationCommands.HandleSetBlueprintParentClass hP bpP r).markedModified = true
     ∧ (FUnrealMCPBlueprintMigrationCommands.HandleSetBlueprintParentClass hP bpP r).blueprint
        = (FUnrealMCPBlueprintMigrationCommands.HandleSetBlueprintParentClass
            { hP with fsWriteOk := true } bpP r).blueprint
     ∧ (FUnrealMCPBlueprintMigrationCommands.HandleSetBlueprintParentClass hP bpP r).response.getField
        "backup_path" = none
     ∧ (FUnrealMCPBlueprintMigrationCommands.HandleSetBlueprintParentClass hP bpP r).response.getField
        "success" = some (.bool true)
     ∧ (FUnrealMCPBlueprintMigrationCommands.HandleSetBlueprintParentClass hP bpP r).response.getField
        "error" = none) :=
  ⟨redirect_apply_write_fail hR bp p hRfs hpb hRapply,
   delete_write_fail hD bpD q hDfs hqb hDapply,
   reparent_write_fail hP bpP r hPfs hrb hPapply⟩

theorem C6_witness :
    exRedirectHostNoFs.fsWriteOk = false ∧ exParamsApplyBackup.backup = true
    ∧ (FUnrealMCPBlueprintMigrationCommands.HandleRedirectFunctionCall
        { exRedirectHostNoFs with fsWriteOk := true } exBlueprint exParamsApplyBackup).markedModified = true
    ∧ exFileHostNoFs.fsWriteOk = false ∧ exDeleteParams.backup = true
    ∧ (FDeleteBlueprintFunctionCommand.Execute
        { exFileHostNoFs with fsWriteOk := true } exDeleteBlueprint exDeleteParams).markedModified = true
    ∧ exReparentHostNoFs.fsWriteOk = false ∧ exReparentParams.backup = true
    ∧ (FUnrealMCPBlueprintMigrationCommands.HandleSetBlueprintParentClass
        { exReparentHostNoFs with fsWriteOk := true } exBlueprint exReparentParams).markedModified = true
    ∧ (((FUnrealMCPBlueprintMigrationCommands.HandleRedirectFunctionCall exRedirectHostNoFs exBlueprint exParamsApplyBackup).markedModified = true
      ∧ (FUnrealMCPBlueprintMigrationCommands.HandleRedirectFunctionCall exRedirectHostNoFs exBlueprint exParamsApplyBackup).blueprint
          = (FUnrealMCPBlueprintMigrationCommands.HandleRedirectFunctionCall
              { exRedirectHostNoFs with fsWriteOk := true } exBlueprint exParamsApplyBackup).blueprint
      ∧ (FUnrealMCPBlueprintMigrationCommands.HandleRedirectFunctionCall exRedirectHostNoFs exBlueprint exParamsApplyBackup).response.getField
          "backup_path" = some (.str "")
      ∧ (FUnrealMCPBlueprintMigrationCommands.HandleRedirectFunctionCall exRedirectHostNoFs exBlueprint exParamsApplyBackup).response.getField
          "error" = none)
    ∧ ((FDeleteBlueprintFunctionCommand.Execute exFileHostNoFs exDeleteBlueprint exDeleteParams).markedModified = true
      ∧ (FDeleteBlueprintFunctionCommand.Execute exFileHostNoFs exDeleteBlueprint exDeleteParams).blueprint
          = (FDeleteBlueprintFunctionCommand.Execute
              { exFileHostNoFs with fsWriteOk := true } exDeleteBlueprint exDeleteParams).blueprint
      ∧ (FDeleteBlueprintFunctionCommand.Execute exFileHostNoFs exDeleteBlueprint exDeleteParams).response.getField
          "backup_path" = none
      ∧ (FDeleteBlueprintFunctionCommand.Execute exFileHostNoFs exDeleteBlueprint exDeleteParams).response.getField
          "success" = some (.bool true)
      ∧ (FDeleteBlueprintFunctionCommand.Execute exFileHostNoFs exDeleteBlueprint exDeleteParams).response.getField
          "error" = none)
    ∧ ((FUnrealMCPBlueprintMigrationCommands.HandleSetBlueprintParentClass exReparentHostNoFs exBlueprint exReparentParams).markedModified = true
      ∧ (FUnrealMCPBlueprintMigrationCommands.HandleSetBlueprintParentClass exReparentHostNoFs exBlueprint exReparentParams).blueprint
          = (FUnrealMCPBlueprintMigrationCommands.HandleSetBlueprintParentClass
              { exReparentHostNoFs with fsWriteOk := true } exBlueprint exReparentParams).blueprint
      ∧ (FUnrealMCPBlueprintMigrationCommands.HandleSetBlueprintParentClass exReparentHostNoFs exBlueprint exReparentParams).response.getField
          "backup_path" = none
      ∧ (FUnrealMCPBlueprintMigrationCommands.HandleSetBlueprintParentClass exReparentHostNoFs exBlueprint exReparentParams).response.getField
          "success" = some (.bool true)
      ∧ (FUnrealMCPBlueprintMigrationCommands.HandleSetBlueprintParentClass exReparentHostNoFs exBlueprint exReparentParams).response.getField
          "error" = none)) :=
  ⟨rfl, rfl, rfl, rfl, rfl, rfl, rfl, rfl, rfl,
   C6_backup_write_failure_proceeds exRedirectHostNoFs exBlueprint exParamsApplyBackup
     exFileHostNoFs exDeleteBlueprint exDeleteParams
     exReparentHostNoFs exBlueprint exReparentParams
     rfl rfl rfl rfl rfl rfl rfl rfl rfl⟩
